import Mathlib

/-!
Shallow embedding of the hfrat-backend health-facility resource reporting
API (Flask/SQLAlchemy), covering the validation/sanitization layer
(`app/utils/validators.py`), the role guard and revocation set
(`app/utils/decorators.py`, `app/routes/auth.py`), the data model
(`app/models/*.py`) and the domain operations (`app/routes/auth.py`,
`app/routes/admin.py`, `app/routes/reporter.py`, `app/routes/monitor.py`).

JSON payload fields are modelled by the inductive `Py` of Python/JSON
values (None, bool, int, str, list, dict); parsed JWT-identity documents
by the inductive `Json`, whose floats carry their source lexeme (their
binary64 numeric semantics are outside the embedding).  Machine-level
details that no verified property depends on (binary64 rounding,
underscores in Python integer literals, the exact Unicode whitespace set
of `str.strip`) are noted at the definitions that omit them.  Password hashing is external to the repository ("an opaque keyed
hash function"), so operations that hash or check passwords take the hash
or check function as an explicit parameter.
-/

/-- Python/JSON values as they appear in request payloads and JWT
identities. -/
inductive Py where
  | none
  | bool (b : Bool)
  | int (n : Int)
  | str (s : String)
  | list (xs : List Py)
  | dict (kvs : List (String × Py))

/-- Comma-space separated join, as Python uses when printing containers. -/
def joinComma (parts : List String) : String :=
  String.intercalate ", " parts

mutual

/-- Python `str(value)` on our value fragment. -/
def pyStr : Py → String
  | .none => "None"
  | .bool b => if b then "True" else "False"
  | .int n => toString n
  | .str s => s
  | .list xs => "[" ++ joinComma (pyReprList xs) ++ "]"
  | .dict kvs => "\x7b" ++ joinComma (pyReprPairs kvs) ++ "\x7d"

/-- Python `repr(value)`, used for elements inside containers. -/
def pyRepr : Py → String
  | .none => "None"
  | .bool b => if b then "True" else "False"
  | .int n => toString n
  | .str s => "\x27" ++ s ++ "\x27"
  | .list xs => "[" ++ joinComma (pyReprList xs) ++ "]"
  | .dict kvs => "\x7b" ++ joinComma (pyReprPairs kvs) ++ "\x7d"

def pyReprList : List Py → List String
  | [] => []
  | x :: xs => pyRepr x :: pyReprList xs

def pyReprPairs : List (String × Py) → List String
  | [] => []
  | (k, v) :: kvs => ("\x27" ++ k ++ "\x27: " ++ pyRepr v) :: pyReprPairs kvs

end

/-- Python truthiness (`bool(value)`) on our value fragment. -/
def truthy : Py → Bool
  | .none => false
  | .bool b => b
  | .int n => n != 0
  | .str s => !s.toList.isEmpty
  | .list xs => !xs.isEmpty
  | .dict kvs => !kvs.isEmpty

/-- Whitespace in the sense of Python `str.strip()` (ASCII subset). -/
def isPySpace (c : Char) : Bool :=
  c = ' ' || c = '\t' || c = '\n' || c = '\r' || c = '\x0b' || c = '\x0c'

/-- Leading and trailing whitespace removal, Python `str.strip()`. -/
def pyStrip (s : String) : String :=
  String.mk (((s.toList.dropWhile isPySpace).reverse.dropWhile isPySpace).reverse)

/-- ASCII lowercasing, Python `str.lower()` on the ASCII fragment the
routes feed it. -/
def strToLower (s : String) : String :=
  String.mk (s.toList.map Char.toLower)

/-- Python `value is None`. -/
def Py.isNone : Py → Bool
  | .none => true
  | _ => false

/-- Decimal digit run to a natural number; fails on empty or non-digit
input (Python `int("...")` raising `ValueError`; underscores between
digits, accepted by Python, are not modelled). -/
def digitsToNat (ds : List Char) : Option Nat :=
  if ds.isEmpty then Option.none
  else if ds.all Char.isDigit then
    some (ds.foldl (fun a c => a * 10 + (c.toNat - 48)) 0)
  else Option.none

/-- Python `int(s)` on strings: surrounding whitespace is stripped, an
optional sign precedes the digits. -/
def parsePyInt (s : String) : Option Int :=
  match pyStrip s |>.toList with
  | '+' :: ds => (digitsToNat ds).map Int.ofNat
  | '-' :: ds => (digitsToNat ds).map (fun n => -(n : Int))
  | ds => (digitsToNat ds).map Int.ofNat

/-- Python `int(value)`: ints pass through, bools coerce to 0/1, strings
are parsed, everything else raises (`TypeError`), modelled as `none`. -/
def pyInt : Py → Option Int
  | .none => Option.none
  | .bool b => some (if b then 1 else 0)
  | .int n => some n
  | .str s => parsePyInt s
  | .list _ => Option.none
  | .dict _ => Option.none

/-- Embeds `sanitize_string` (validators.py): None becomes the empty
string; otherwise stringify, strip, drop NUL bytes, truncate to
`max_length`. -/
def sanitize_string (value : Py) (max_length : Nat) : String :=
  match value with
  | .none => ""
  | v =>
    let s := pyStrip (pyStr v)
    let s := String.mk (s.toList.filter (fun c => c ≠ '\x00'))
    if s.length > max_length then String.mk (s.toList.take max_length) else s

/-- Embeds `sanitize_email` (validators.py): falsy input becomes "";
otherwise sanitize to 255 chars, lowercase, and strip the characters
`<>()[]\x7b\x7d|` and backslash. -/
def sanitize_email (email : Py) : String :=
  if !truthy email then ""
  else
    let s := strToLower (sanitize_string email 255)
    String.mk (s.toList.filter (fun c =>
      !(c = '<' ∨ c = '>' ∨ c = '(' ∨ c = ')' ∨ c = '[' ∨ c = ']' ∨
        c = '\x7b' ∨ c = '\x7d' ∨ c = '|' ∨ c = '\\')))

/-- Character class `[a-zA-Z0-9._%+-]` of the local part of the email
regex in `is_valid_email`. -/
def emailLocalChar (c : Char) : Bool :=
  c.isAlpha || c.isDigit || c = '.' || c = '_' || c = '%' || c = '+' || c = '-'

/-- Character class `[a-zA-Z0-9.-]` of the domain part of the email regex
in `is_valid_email`. -/
def emailDomainChar (c : Char) : Bool :=
  c.isAlpha || c.isDigit || c = '.' || c = '-'

/-- Match for the tail of the email regex after the at sign:
one or more domain chars, a literal dot, then two or more letters, at the
end of the string.  Matching is existential over the split point, which
is what regex backtracking computes. -/
def emailDomainMatch (cs : List Char) : Bool :=
  (List.range cs.length).any (fun j =>
    cs.get? j == some '.' && decide (0 < j) &&
    (cs.take j).all emailDomainChar &&
    (let t := cs.drop (j + 1)
     decide (2 ≤ t.length) && t.all Char.isAlpha))

/-- Full match of `^[a-zA-Z0-9._%+-]+@[a-zA-Z0-9.-]+\.[a-zA-Z]{2,}$`:
a split at a literal at sign with a nonempty all-local-chars prefix and a
matching domain tail. -/
def emailCoreMatch (cs : List Char) : Bool :=
  (List.range cs.length).any (fun i =>
    cs.get? i == some '@' && decide (0 < i) &&
    (cs.take i).all emailLocalChar &&
    emailDomainMatch (cs.drop (i + 1)))

/-- Embeds `is_valid_email` (validators.py): falsy input is invalid, else
the anchored regex must match.  The Python `$` anchor also matches just
before one trailing newline, which the second disjunct reproduces. -/
def is_valid_email (s : String) : Bool :=
  if s.toList.isEmpty then false
  else
    emailCoreMatch s.toList ||
    (s.toList.getLast? == some '\n' && emailCoreMatch s.toList.dropLast)

/-- Embeds `sanitize_integer` (validators.py): None stays None; otherwise
coerce with `int(...)` (failure gives None), then bounds-check against the
optional minimum and maximum. -/
def sanitize_integer (value : Py) (min_val max_val : Option Int) : Option Int :=
  match value with
  | .none => Option.none
  | v =>
    match pyInt v with
    | Option.none => Option.none
    | some num =>
      if (match min_val with | some m => decide (num < m) | Option.none => false) then
        Option.none
      else if (match max_val with | some m => decide (m < num) | Option.none => false) then
        Option.none
      else some num

/-- Registration/login payload (`request.get_json()`), restricted to the
fields `validate_user_payload` and the auth routes read.  The password is
modelled as an optional JSON string (a non-string password would raise in
`len(password)` and is outside the embedding's domain). -/
structure UserPayload where
  email : Py
  password : Option String
  role : Py
  facility_id : Py

/-- Python truthiness of the optional-string password field. -/
def optStrTruthy : Option String → Bool
  | Option.none => false
  | some s => !s.toList.isEmpty

/-- Embeds `validate_user_payload` (validators.py): at most one email
message (required / bad format / too long), then at most one password
message (required / too short / too long), in that order. -/
def validate_user_payload (data : UserPayload) (require_password : Bool) : List String :=
  let email := sanitize_email data.email
  let emailErrors :=
    if email = "" then ["Email is required."]
    else if !is_valid_email email then ["Invalid email format."]
    else if email.length > 255 then ["Email is too long (max 255 characters)."]
    else []
  let passwordErrors :=
    if require_password && !optStrTruthy data.password then
      ["Password is required."]
    else if optStrTruthy data.password then
      match data.password with
      | some p =>
        if p.length < 8 then ["Password must be at least 8 characters."]
        else if p.length > 128 then ["Password is too long (max 128 characters)."]
        else []
      | Option.none => []
    else []
  emailErrors ++ passwordErrors

/-- Resource report payload, restricted to the fields
`validate_report_payload` and `create_report` read. -/
structure ReportPayload where
  facility_id : Py
  icu_beds_available : Py
  ventilators_available : Py
  staff_on_duty : Py

/-- One iteration of the resource-field loop in `validate_report_payload`:
a missing field (None, or a value whose string form strips to empty after
failing coercion) is "required", any other coercion/bounds failure is
"must be a non-negative integer (max 10000)". -/
def reportFieldErrors (field : String) (value : Py) : List String :=
  if value.isNone then [field ++ " is required."]
  else
    match sanitize_integer value (some 0) (some 10000) with
    | Option.none =>
      if pyStrip (pyStr value) = "" then [field ++ " is required."]
      else [field ++ " must be a non-negative integer (max 10000)."]
    | some _ => []

/-- Embeds `validate_report_payload` (validators.py). -/
def validate_report_payload (data : ReportPayload) : List String :=
  let facilityErrors :=
    match sanitize_integer data.facility_id (some 1) Option.none with
    | Option.none =>
      if data.facility_id.isNone then ["facility_id is required."]
      else ["facility_id must be a positive integer."]
    | some _ => []
  facilityErrors ++
    reportFieldErrors "icu_beds_available" data.icu_beds_available ++
    reportFieldErrors "ventilators_available" data.ventilators_available ++
    reportFieldErrors "staff_on_duty" data.staff_on_duty

/-- Facility payload, restricted to the fields `validate_facility_payload`
and `create_facility` read. -/
structure FacilityPayload where
  name : Py
  country : Py
  city : Py

/-- Embeds `validate_facility_payload` (validators.py): name required and
at least 2 chars after sanitization to 150; truthy country/city are
sanitized to 120 chars and then length-checked against 120. -/
def validate_facility_payload (data : FacilityPayload) : List String :=
  let name := sanitize_string data.name 150
  let nameErrors :=
    if name = "" then ["Facility name is required."]
    else if name.length < 2 then ["Facility name must be at least 2 characters."]
    else []
  let countryErrors :=
    if truthy data.country then
      let country := sanitize_string data.country 120
      if country.length > 120 then ["Country name is too long (max 120 characters)."]
      else []
    else []
  let cityErrors :=
    if truthy data.city then
      let city := sanitize_string data.city 120
      if city.length > 120 then ["City name is too long (max 120 characters)."]
      else []
    else []
  nameErrors ++ countryErrors ++ cityErrors

/-- User roles (`UserRole` enum in models/user.py). -/
inductive UserRole where
  | admin
  | reporter
  | monitor
deriving DecidableEq

/-- The enum's string value. -/
def UserRole.value : UserRole → String
  | .admin => "admin"
  | .reporter => "reporter"
  | .monitor => "monitor"

/-- Embeds the `UserRole(role_value)` constructor call: an unknown string
raises `ValueError`, modelled as `none`. -/
def UserRole.ofValue : String → Option UserRole
  | "admin" => some .admin
  | "reporter" => some .reporter
  | "monitor" => some .monitor
  | _ => Option.none

/-- A `users` row (models/user.py); `created_at`/`updated_at` timestamps
are not read by any verified property and are omitted. -/
structure User where
  id : Int
  email : String
  password_hash : String
  role : UserRole
  facility_id : Option Int
deriving DecidableEq

/-- A `facilities` row (models/facility.py); `created_at` omitted as
above. -/
structure Facility where
  id : Int
  name : String
  country : Option String
  city : Option String
deriving DecidableEq

/-- A `resource_reports` row (models/resource_report.py).  The three
resource columns hold whatever the route assigns (the sanitized values,
`Option Int`); `updated_at` is an abstract tick. -/
structure Report where
  id : Int
  facility_id : Int
  icu_beds_available : Option Int
  ventilators_available : Option Int
  staff_on_duty : Option Int
  updated_at : Nat
deriving DecidableEq

/-- The relational store: the three tables plus the autoincrement
counters the database would maintain. -/
structure Store where
  facilities : List Facility
  users : List User
  reports : List Report
  nextUserId : Int
  nextReportId : Int
deriving DecidableEq

/-- Parsed JSON documents, as `json.loads` produces them.  Floats carry
their source lexeme: their binary64 numeric semantics are outside the
embedding, and the guard only ever needs that a float is not an object
(so attribute access on it raises). -/
inductive Json where
  | null
  | bool (b : Bool)
  | int (n : Int)
  | float (lexeme : String)
  | str (s : String)
  | arr (xs : List Json)
  | obj (kvs : List (String × Json))

/-- JSON insignificant whitespace skipper for the `json.loads` model
(exactly space, tab, newline, carriage return). -/
def skipWs : List Char → List Char
  | [] => []
  | c :: cs => if c = ' ' || c = '\t' || c = '\n' || c = '\r' then skipWs cs else c :: cs

/-- The two-character escapes of JSON strings. -/
def jsonSimpleEscape : Char → Option Char
  | '"' => some '"'
  | '\\' => some '\\'
  | '/' => some '/'
  | 'b' => some '\x08'
  | 'f' => some '\x0c'
  | 'n' => some '\n'
  | 'r' => some '\r'
  | 't' => some '\t'
  | _ => Option.none

/-- Hexadecimal digit value, both cases. -/
def hexDigitVal (c : Char) : Option Nat :=
  if c.isDigit then some (c.toNat - 48)
  else if 'a' ≤ c ∧ c ≤ 'f' then some (c.toNat - 87)
  else if 'A' ≤ c ∧ c ≤ 'F' then some (c.toNat - 55)
  else Option.none

/-- Value of a four-hex-digit `\uXXXX` escape. -/
def hex4 (a b c d : Char) : Option Nat :=
  match hexDigitVal a, hexDigitVal b, hexDigitVal c, hexDigitVal d with
  | some x, some y, some z, some w => some (((x * 16 + y) * 16 + z) * 16 + w)
  | _, _, _, _ => Option.none

/-- Prepend a decoded character to a partial string-parse result. -/
def strCons (c : Char) (p : String × List Char) : String × List Char :=
  (String.mk (c :: p.1.toList), p.2)

/-- JSON string body up to the closing quote, with the full escape set of
`json.loads` in strict mode: the simple escapes, `\uXXXX`, surrogate
pairs, and rejection of raw control characters and invalid escapes.
Python keeps a lone surrogate as-is in the resulting str; Lean characters
cannot hold one, so the model substitutes U+FFFD — acceptance is
unchanged and no verified property compares such content. -/
def parseJsonString : List Char → Option (String × List Char)
  | [] => Option.none
  | '"' :: rest => some ("", rest)
  | '\\' :: 'u' :: a :: b :: c :: d :: '\\' :: 'u' :: e :: f :: g :: h :: rest =>
    match hex4 a b c d with
    | Option.none => Option.none
    | some n =>
      if 0xD800 ≤ n ∧ n ≤ 0xDBFF then
        match hex4 e f g h with
        | Option.none => Option.none
        | some m =>
          if 0xDC00 ≤ m ∧ m ≤ 0xDFFF then
            (parseJsonString rest).map
              (strCons (Char.ofNat (0x10000 + (n - 0xD800) * 0x400 + (m - 0xDC00))))
          else
            (parseJsonString ('\\' :: 'u' :: e :: f :: g :: h :: rest)).map
              (strCons (Char.ofNat 0xFFFD))
      else
        (parseJsonString ('\\' :: 'u' :: e :: f :: g :: h :: rest)).map
          (strCons (if 0xDC00 ≤ n ∧ n ≤ 0xDFFF then Char.ofNat 0xFFFD else Char.ofNat n))
  | '\\' :: 'u' :: a :: b :: c :: d :: rest =>
    match hex4 a b c d with
    | Option.none => Option.none
    | some n =>
      (parseJsonString rest).map
        (strCons (if 0xD800 ≤ n ∧ n ≤ 0xDFFF then Char.ofNat 0xFFFD else Char.ofNat n))
  | '\\' :: e :: rest =>
    match jsonSimpleEscape e with
    | some ch => (parseJsonString rest).map (strCons ch)
    | Option.none => Option.none
  | c :: rest =>
    if c.toNat < 32 then Option.none
    else (parseJsonString rest).map (strCons c)
termination_by l => l.length
decreasing_by all_goals (simp only [List.length_cons]; omega)

/-- Integer part of a JSON number: a single 0, or a nonzero digit
followed by digits (the leading-zero rule of the JSON grammar that
Python's NUMBER_RE enforces). -/
def jsonIntPart : List Char → Option (List Char × List Char)
  | '0' :: rest => some (['0'], rest)
  | c :: rest =>
    if c.isDigit then
      some ((c :: rest).takeWhile Char.isDigit, (c :: rest).dropWhile Char.isDigit)
    else Option.none
  | [] => Option.none

/-- Optional fraction of a JSON number: a dot with at least one digit,
else nothing is consumed. -/
def jsonFrac : List Char → List Char × List Char
  | '.' :: rest =>
    let ds := rest.takeWhile Char.isDigit
    if ds.isEmpty then ([], '.' :: rest)
    else ('.' :: ds, rest.dropWhile Char.isDigit)
  | cs => ([], cs)

/-- Optional exponent of a JSON number: e or E, an optional sign, and at
least one digit, else nothing is consumed. -/
def jsonExp : List Char → List Char × List Char
  | c :: rest =>
    if c = 'e' ∨ c = 'E' then
      match rest with
      | s :: rest2 =>
        if s = '+' ∨ s = '-' then
          let ds := rest2.takeWhile Char.isDigit
          if ds.isEmpty then ([], c :: s :: rest2)
          else (c :: s :: ds, rest2.dropWhile Char.isDigit)
        else
          let ds := rest.takeWhile Char.isDigit
          if ds.isEmpty then ([], c :: rest)
          else (c :: ds, rest.dropWhile Char.isDigit)
      | [] => ([], [c])
    else ([], c :: rest)
  | [] => ([], [])

/-- A JSON number after the optional leading minus: digits-only input is
an int, any fraction or exponent makes a float carrying the full
lexeme. -/
def parseJsonNumber (neg : Bool) (cs : List Char) : Option (Json × List Char) :=
  match jsonIntPart cs with
  | Option.none => Option.none
  | some (ip, rest1) =>
    let fr := jsonFrac rest1
    let ex := jsonExp fr.2
    if fr.1.isEmpty && ex.1.isEmpty then
      (digitsToNat ip).map (fun n =>
        (Json.int (if neg then -(n : Int) else (n : Int)), rest1))
    else
      some (Json.float (String.mk ((if neg then ['-'] else []) ++ ip ++ fr.1 ++ ex.1)),
        ex.2)

mutual

/-- Fuel-indexed recursive-descent JSON value parser, modelled from
Python's `json.loads` (strict mode): null/true/false, the non-standard
constants NaN, Infinity and -Infinity that Python accepts, strings with
escapes, numbers per the JSON grammar, arrays and objects.  Python's
recursion limit on very deeply nested documents is a resource bound
outside the model. -/
def parseJson : Nat → List Char → Option (Json × List Char)
  | 0, _ => Option.none
  | fuel + 1, cs =>
    match skipWs cs with
    | 'n' :: 'u' :: 'l' :: 'l' :: rest => some (.null, rest)
    | 't' :: 'r' :: 'u' :: 'e' :: rest => some (.bool true, rest)
    | 'f' :: 'a' :: 'l' :: 's' :: 'e' :: rest => some (.bool false, rest)
    | 'N' :: 'a' :: 'N' :: rest => some (.float "NaN", rest)
    | 'I' :: 'n' :: 'f' :: 'i' :: 'n' :: 'i' :: 't' :: 'y' :: rest =>
      some (.float "Infinity", rest)
    | '"' :: rest => (parseJsonString rest).map (fun p => (.str p.1, p.2))
    | '[' :: rest => (parseJsonElems fuel rest true).map (fun p => (.arr p.1, p.2))
    | '{' :: rest => (parseJsonMembers fuel rest true).map (fun p => (.obj p.1, p.2))
    | '-' :: 'I' :: 'n' :: 'f' :: 'i' :: 'n' :: 'i' :: 't' :: 'y' :: rest =>
      some (.float "-Infinity", rest)
    | '-' :: rest => parseJsonNumber true rest
    | c :: rest => if c.isDigit then parseJsonNumber false (c :: rest) else Option.none
    | [] => Option.none

/-- Comma-separated array elements up to the closing bracket. -/
def parseJsonElems : Nat → List Char → Bool → Option (List Json × List Char)
  | 0, _, _ => Option.none
  | fuel + 1, cs, first =>
    match skipWs cs, first with
    | ']' :: rest, true => some ([], rest)
    | cs2, _ =>
      match parseJson fuel cs2 with
      | Option.none => Option.none
      | some (v, rest1) =>
        match skipWs rest1 with
        | ']' :: r => some ([v], r)
        | ',' :: r => (parseJsonElems fuel r false).map (fun p => (v :: p.1, p.2))
        | _ => Option.none

/-- Comma-separated object members up to the closing brace. -/
def parseJsonMembers : Nat → List Char → Bool → Option (List (String × Json) × List Char)
  | 0, _, _ => Option.none
  | fuel + 1, cs, first =>
    match skipWs cs, first with
    | '\x7d' :: rest, true => some ([], rest)
    | '"' :: rest, _ =>
      match parseJsonString rest with
      | Option.none => Option.none
      | some (k, rest1) =>
        match skipWs rest1 with
        | ':' :: rest2 =>
          match parseJson fuel rest2 with
          | Option.none => Option.none
          | some (v, rest3) =>
            match skipWs rest3 with
            | '\x7d' :: r => some ([(k, v)], r)
            | ',' :: r => (parseJsonMembers fuel r false).map (fun p => ((k, v) :: p.1, p.2))
            | _ => Option.none
        | _ => Option.none
    | _, _ => Option.none

end

/-- Python `==` between a value and a string literal. -/
def pyEqStr : Py → String → Bool
  | .str s, a => s == a
  | _, _ => false

/-- Python `==` between a value and an int: ints compare numerically,
bools coerce to 0/1, all other types are unequal. -/
def pyEqInt : Py → Int → Bool
  | .int n, m => n == m
  | .bool b, m => (if b then (1 : Int) else 0) == m
  | _, _ => false

/-- Embeds `is_token_revoked` (auth.py): the blocklist callback checks the
payload's jti against the module-level `revoked_tokens` set (an absent jti
is None, which is in no set of strings). -/
def is_token_revoked (revoked_tokens : List String) (jti : Option String) : Bool :=
  match jti with
  | some s => revoked_tokens.contains s
  | Option.none => false

/-- Embeds `logout` (auth.py): a truthy jti is added to the revocation
set; the response is always 200 "Logged out".  Returns the updated set
and the response message. -/
def logout (revoked_tokens : List String) (jti : Option String) : List String × String :=
  match jti with
  | some s =>
    if !s.toList.isEmpty then (s :: revoked_tokens, "Logged out")
    else (revoked_tokens, "Logged out")
  | Option.none => (revoked_tokens, "Logged out")

/-- First stage of every `jwt_required` route: flask_jwt_extended consults
the blocklist callback and rejects a revoked token as unauthenticated
(401) before the view function runs. -/
inductive TokenCheck (α : Type) where
  | revoked_rejected
  | run (a : α)
deriving DecidableEq

/-- A guarded request: the handler runs only if the presented token's jti
is not revoked. -/
def guarded_request {α : Type} (revoked_tokens : List String) (jti : Option String)
    (handler : α) : TokenCheck α :=
  if is_token_revoked revoked_tokens jti then .revoked_rejected else .run handler

/-- The rest of the process lifetime, as far as the revocation set is
concerned: `logout` is the only code that mutates `revoked_tokens`, so a
lifetime is a sequence of further logout calls. -/
def run_logouts (revoked_tokens : List String) : List (Option String) → List String
  | [] => revoked_tokens
  | j :: js => run_logouts (logout revoked_tokens j).1 js

/-- Response of `register` / admin `create_user`, by status and body. -/
inductive RegisterResult where
  | validationErrors (errors : List String)
  | badRequest (error : String)
  | notFound (error : String)
  | conflict (error : String)
  | created (user : User)
deriving DecidableEq

/-- HTTP status of a register/create-user response. -/
def RegisterResult.status : RegisterResult → Nat
  | .validationErrors _ => 400
  | .badRequest _ => 400
  | .notFound _ => 404
  | .conflict _ => 409
  | .created _ => 201

/-- Embeds `register` (auth.py): validate, sanitize, parse role (absent or
falsy role defaults to "reporter"), reject a present-but-invalid
facility_id, reject a facility_id for non-reporters, 404 a missing
facility, then insert the user (409 on a duplicate email, which the
unique constraint would raise as IntegrityError).  `hash` is the opaque
`generate_password_hash`. -/
def register (hash : String → String) (store : Store) (data : UserPayload) :
    RegisterResult × Store :=
  let errors := validate_user_payload data true
  if errors ≠ [] then (.validationErrors errors, store)
  else
    let email := sanitize_email data.email
    let role_value :=
      strToLower (sanitize_string (if truthy data.role then data.role else .str "reporter") 50)
    let facility_id := sanitize_integer data.facility_id (some 1) Option.none
    if !data.facility_id.isNone && facility_id.isNone then
      (.badRequest "facility_id must be a positive integer.", store)
    else
      match UserRole.ofValue role_value with
      | Option.none => (.badRequest "Invalid role.", store)
      | some role =>
        if role ≠ UserRole.reporter ∧ facility_id.isSome then
          (.badRequest "facility_id allowed only for reporter role.", store)
        else if (facility_id.any (fun fid =>
                   (store.facilities.find? (fun f => f.id == fid)).isNone)) then
          (.notFound "Facility not found.", store)
        else
          let user : User :=
            { id := store.nextUserId, email := email,
              password_hash := hash ((data.password).getD ""),
              role := role, facility_id := facility_id }
          if store.users.any (fun u => u.email == email) then
            (.conflict "Email already registered.", store)
          else
            (.created user,
             { store with users := store.users ++ [user],
                          nextUserId := store.nextUserId + 1 })

/-- Response of `login`, by status and body. -/
inductive LoginResult where
  | validationErrors (errors : List String)
  | unauthorized (error : String)
  | ok (role : String) (facility_id : Option Int)
deriving DecidableEq

/-- HTTP status of a login response. -/
def LoginResult.status : LoginResult → Nat
  | .validationErrors _ => 400
  | .unauthorized _ => 401
  | .ok _ _ => 200

/-- Embeds `login` (auth.py): the same full payload validation as
registration, then a lookup by sanitized email and a password check, with
one shared 401 body for both failure causes.  `checkPw` is the opaque
`check_password_hash` applied to the stored hash and the raw password. -/
def login (checkPw : String → String → Bool) (store : Store) (data : UserPayload) :
    LoginResult :=
  let errors := validate_user_payload data true
  if errors ≠ [] then .validationErrors errors
  else
    let email := sanitize_email data.email
    match store.users.find? (fun u => u.email == email) with
    | Option.none => .unauthorized "Invalid credentials."
    | some user =>
      if !checkPw user.password_hash ((data.password).getD "") then
        .unauthorized "Invalid credentials."
      else .ok user.role.value user.facility_id

/-- Admin create-user payload, restricted to the fields the route reads;
the two password fields are optional JSON strings as in `UserPayload`. -/
structure AdminUserPayload where
  email : Py
  password : Option String
  temporary_password : Option String
  role : Py
  facility_id : Py

/-- Python `a or b` on the optional-string password fields. -/
def orOptStr (a b : Option String) : Option String :=
  if optStrTruthy a then a else b

/-- Embeds admin `create_user` (admin.py): email and temporary password
required, role must parse; a reporter must name an existing facility,
everyone else gets facility_id forced to null; 409 on duplicate email. -/
def create_user (hash : String → String) (store : Store) (data : AdminUserPayload) :
    RegisterResult × Store :=
  let email := sanitize_email data.email
  let temp_password := orOptStr data.password data.temporary_password
  let role_value := strToLower (sanitize_string data.role 50)
  let facility_id := sanitize_integer data.facility_id (some 1) Option.none
  if email = "" then (.badRequest "email is required.", store)
  else if !optStrTruthy temp_password then
    (.badRequest "temporary password is required.", store)
  else
    match UserRole.ofValue role_value with
    | Option.none => (.badRequest "Invalid role.", store)
    | some role =>
      let insertUser : Option Int → RegisterResult × Store := fun fid =>
        let new_user : User :=
          { id := store.nextUserId, email := email,
            password_hash := hash (temp_password.getD ""),
            role := role, facility_id := fid }
        if store.users.any (fun u => u.email == email) then
          (.conflict "Email already registered.", store)
        else
          (.created new_user,
           { store with users := store.users ++ [new_user],
                        nextUserId := store.nextUserId + 1 })
      if role = UserRole.reporter then
        match facility_id with
        | Option.none => (.badRequest "facility_id is required for reporter.", store)
        | some fid =>
          if (store.facilities.find? (fun f => f.id == fid)).isNone then
            (.notFound "Facility not found.", store)
          else insertUser (some fid)
      else insertUser Option.none

/-- Response of reporter `create_report`, by status and body. -/
inductive ReportResult where
  | validationErrors (errors : List String)
  | badRequest (error : String)
  | forbidden (error : String)
  | notFound (error : String)
  | created (report : Report)
deriving DecidableEq

/-- HTTP status of a create-report response. -/
def ReportResult.status : ReportResult → Nat
  | .validationErrors _ => 400
  | .badRequest _ => 400
  | .forbidden _ => 403
  | .notFound _ => 404
  | .created _ => 201

/-- The three-field overwrite the upsert performs on an existing row
(the `setattr` loop), together with the `onupdate` refresh of
`updated_at`. -/
def setReportFields (icu vent staff : Option Int) (now : Nat) (r : Report) : Report :=
  { r with icu_beds_available := icu, ventilators_available := vent,
           staff_on_duty := staff, updated_at := now }

/-- Apply `f` to the first report for `fid`, as mutating the row returned
by `.filter_by(facility_id=...).first()` does. -/
def updateFirstReport (reports : List Report) (fid : Int) (f : Report → Report) :
    List Report :=
  match reports with
  | [] => []
  | r :: rs =>
    if r.facility_id == fid then f r :: rs
    else r :: updateFirstReport rs fid f

/-- The upsert at the end of `create_report`: overwrite the first existing
row for the facility in place, or insert a fresh row. -/
def upsertReport (fid : Int) (icu vent staff : Option Int) (now : Nat) (store : Store) :
    Report × Store :=
  match store.reports.find? (fun r => r.facility_id == fid) with
  | some r0 =>
    (setReportFields icu vent staff now r0,
     { store with reports := updateFirstReport store.reports fid (setReportFields icu vent staff now) })
  | Option.none =>
    let r : Report :=
      { id := store.nextReportId, facility_id := fid, icu_beds_available := icu,
        ventilators_available := vent, staff_on_duty := staff, updated_at := now }
    (r, { store with reports := store.reports ++ [r],
                     nextReportId := store.nextReportId + 1 })

/-- Embeds reporter `create_report` (reporter.py), given the role and
facility fields already read from the parsed identity dict: validate,
re-sanitize facility_id, enforce that a reporter writes only to their
own linked facility, 404 a missing facility, sanitize the three counts,
then upsert.  `now` is the commit timestamp. -/
def create_report (role reporter_facility_id : Py) (now : Nat) (store : Store)
    (data : ReportPayload) : ReportResult × Store :=
  let errors := validate_report_payload data
  if errors ≠ [] then (.validationErrors errors, store)
  else
    match sanitize_integer data.facility_id (some 1) Option.none with
    | Option.none => (.badRequest "Invalid facility_id.", store)
    | some facility_id =>
      if pyEqStr role "reporter" && !truthy reporter_facility_id then
        (.forbidden "Reporter is not linked to a facility.", store)
      else if pyEqStr role "reporter" && !pyEqInt reporter_facility_id facility_id then
        (.forbidden "Reporter can only submit for their facility.", store)
      else if (store.facilities.find? (fun f => f.id == facility_id)).isNone then
        (.notFound "Facility not found.", store)
      else
        let icu := sanitize_integer data.icu_beds_available (some 0) (some 10000)
        let vent := sanitize_integer data.ventilators_available (some 0) (some 10000)
        let staff := sanitize_integer data.staff_on_duty (some 0) (some 10000)
        let rs := upsertReport facility_id icu vent staff now store
        (.created rs.1, rs.2)

/-- Maximum of a list of timestamps, `func.max` over a group. -/
def natListMax? : List Nat → Option Nat
  | [] => Option.none
  | x :: xs =>
    some (match natListMax? xs with
          | Option.none => x
          | some m => max x m)

/-- The grouped subquery of `dashboard_summary`: the greatest
`updated_at` among the reports of one facility. -/
def latestTs (reports : List Report) (fid : Int) : Option Nat :=
  natListMax? ((reports.filter (fun r => r.facility_id == fid)).map (fun r => r.updated_at))

/-- The join back: reports whose timestamp equals their facility's
greatest timestamp. -/
def latest_reports (reports : List Report) : List Report :=
  reports.filter (fun r => latestTs reports r.facility_id == some r.updated_at)

/-- The `latest_by_facility` dict: comprehension order makes the last
matching row win, hence the search from the rear. -/
def latest_by_facility (reports : List Report) (fid : Int) : Option Report :=
  (latest_reports reports).reverse.find? (fun r => r.facility_id == fid)

/-- One entry of the dashboard summary response. -/
structure DashboardEntry where
  facility_id : Int
  facility_name : String
  country : Option String
  city : Option String
  location : Option String
  icu_beds_available : Option Int
  ventilators_available : Option Int
  staff_on_duty : Option Int
  last_update : Option Nat
  critical : Bool
deriving DecidableEq

/-- Embeds `loc_string` (monitor.py): truthy city then country, comma
joined, else None. -/
def loc_string (fac : Facility) : Option String :=
  let parts := ([fac.city, fac.country].filterMap id).filter (fun s => !s.toList.isEmpty)
  if parts.isEmpty then Option.none else some (joinComma parts)

/-- The loop body of `dashboard_summary` for one facility: resource
fields and last_update come from the latest report when there is one
(`getattr(report, ..., None)`), and `critical` is
`bool(report and report.icu_beds_available == 0)`. -/
def dashboard_entry (reports : List Report) (fac : Facility) : DashboardEntry :=
  let report := latest_by_facility reports fac.id
  { facility_id := fac.id, facility_name := fac.name,
    country := fac.country, city := fac.city, location := loc_string fac,
    icu_beds_available := report.bind (fun r => r.icu_beds_available),
    ventilators_available := report.bind (fun r => r.ventilators_available),
    staff_on_duty := report.bind (fun r => r.staff_on_duty),
    last_update := report.map (fun r => r.updated_at),
    critical :=
      match report with
      | some r => r.icu_beds_available == some (0 : Int)
      | Option.none => false }

/-- Embeds monitor `dashboard_summary` (monitor.py): facilities ordered
by name ascending, one entry each. -/
def dashboard_summary (store : Store) : List DashboardEntry :=
  (store.facilities.insertionSort (fun a b => a.name ≤ b.name)).map
    (dashboard_entry store.reports)

/-- Identity function standing in for the opaque password hash in
concrete witnesses (the hash's behaviour is irrelevant there). -/
def hashId : String → String := fun s => s

/-- A store with empty tables. -/
def emptyStore : Store := ⟨[], [], [], 1, 1⟩

/-- Registration payload with role reporter and no facility_id. -/
def regReporterNoFacility : UserPayload :=
  ⟨Py.str "a@b.com", some "password1", Py.str "reporter", Py.none⟩

/-- Registration payload with role admin and facility_id 1. -/
def regAdminWithFacility : UserPayload :=
  ⟨Py.str "a@b.com", some "password1", Py.str "admin", Py.int 1⟩

/-- Registration payload with role reporter and facility_id 2. -/
def regReporterFacilityTwo : UserPayload :=
  ⟨Py.str "a@b.com", some "password1", Py.str "reporter", Py.int 2⟩

/-- C9.  For all integers v and bounds min, max: sanitize_integer returns
v unchanged iff min ≤ v ≤ max; an out-of-range integer and a non-numeric
string both give the invalid marker None instead of an error. -/
theorem sanitize_integer_spec (v mn mx : Int) :
    (sanitize_integer (Py.int v) (some mn) (some mx) = some v ↔ mn ≤ v ∧ v ≤ mx) ∧
    (¬(mn ≤ v ∧ v ≤ mx) →
      sanitize_integer (Py.int v) (some mn) (some mx) = Option.none) ∧
    (∀ s : String, parsePyInt s = Option.none →
      sanitize_integer (Py.str s) (some mn) (some mx) = Option.none) := by
  have hform : sanitize_integer (Py.int v) (some mn) (some mx) =
      if v < mn then Option.none else if mx < v then Option.none else some v := by
    simp [sanitize_integer, pyInt]
  refine ⟨?_, ?_, ?_⟩
  · rw [hform]
    split
    · next h => simp only [reduceCtorEq, false_iff]; omega
    · split
      · next h => simp only [reduceCtorEq, false_iff]; omega
      · next h1 h2 =>
        exact ⟨fun _ => ⟨by omega, by omega⟩, fun _ => rfl⟩
  · intro hout
    rw [hform]
    split
    · rfl
    · split
      · rfl
      · next h1 h2 => omega
  · intro s hs
    simp [sanitize_integer, pyInt, hs]

/-- Witness for `sanitize_integer_spec`: in-range 5 is returned, 20 above
max 10 gives None, and the non-numeric string "abc" gives None. -/
theorem sanitize_integer_spec_witness :
    sanitize_integer (Py.int 5) (some 0) (some 10) = some 5 ∧
    sanitize_integer (Py.int 20) (some 0) (some 10) = Option.none ∧
    sanitize_integer (Py.str "abc") (some 0) (some 10) = Option.none :=
  ⟨(sanitize_integer_spec 5 0 10).1.mpr (by decide),
   (sanitize_integer_spec 20 0 10).2.1 (by decide),
   (sanitize_integer_spec 0 0 10).2.2 "abc" (by decide)⟩

/-- The sanitizer never returns more than `max_length` characters. -/
theorem sanitize_string_length_le (value : Py) (max_length : Nat) :
    (sanitize_string value max_length).length ≤ max_length := by
  have key : ∀ l : List Char,
      (if (String.mk l).length > max_length then String.mk (l.take max_length)
       else String.mk l).length ≤ max_length := by
    intro l
    split
    · next h =>
      have := List.length_take_le max_length l
      simp only [String.length] at h ⊢
      exact this
    · next h => simp only [String.length] at h ⊢; omega
  cases value
  case none => simp [sanitize_string]
  all_goals exact key _

/-- C10.  The "too long" branches for country and city in
validate_facility_payload are unreachable: both fields are truncated to
120 characters by sanitize_string before the length check, so over-long
values are silently truncated, never rejected. -/
theorem validate_facility_payload_never_toolong (data : FacilityPayload) :
    "Country name is too long (max 120 characters)." ∉ validate_facility_payload data ∧
    "City name is too long (max 120 characters)." ∉ validate_facility_payload data := by
  have hc0 : ¬ ((sanitize_string data.country 120).length > 120) := by
    have := sanitize_string_length_le data.country 120; omega
  have hci0 : ¬ ((sanitize_string data.city 120).length > 120) := by
    have := sanitize_string_length_le data.city 120; omega
  have hcountry0 : (if truthy data.country then
      (if (sanitize_string data.country 120).length > 120 then
        ["Country name is too long (max 120 characters)."] else [])
      else []) = ([] : List String) := by
    by_cases ht : truthy data.country
    · rw [if_pos ht, if_neg hc0]
    · rw [if_neg ht]
  have hcity0 : (if truthy data.city then
      (if (sanitize_string data.city 120).length > 120 then
        ["City name is too long (max 120 characters)."] else [])
      else []) = ([] : List String) := by
    by_cases ht : truthy data.city
    · rw [if_pos ht, if_neg hci0]
    · rw [if_neg ht]
  constructor <;>
    · simp only [validate_facility_payload, hcountry0, hcity0, List.append_nil]
      split <;> try split
      all_goals decide

/-- Counterexample to C3: a login payload whose email is non-empty after
sanitization and fails the format regex, with a valid password, is
answered 400 with the format error — the format check does run at login
(login calls the same validate_user_payload as registration). -/
theorem login_email_format_cex :
    sanitize_email (Py.str "bademail") = "bademail" ∧
    is_valid_email "bademail" = false ∧
    login (fun _ _ => true) emptyStore
        ⟨Py.str "bademail", some "password123", Py.none, Py.none⟩ =
      LoginResult.validationErrors ["Invalid email format."] ∧
    (login (fun _ _ => true) emptyStore
        ⟨Py.str "bademail", some "password123", Py.none, Py.none⟩).status = 400 :=
  ⟨by decide, by decide, by decide, by decide⟩

/-- C3 (amended).  The email format check runs at login exactly as at
registration: any payload whose sanitized email is non-empty and fails
is_valid_email gets a 400 validation response from login containing
"Invalid email format.". -/
theorem login_rejects_invalid_email_format (checkPw : String → String → Bool)
    (store : Store) (data : UserPayload)
    (hne : sanitize_email data.email ≠ "")
    (hbad : is_valid_email (sanitize_email data.email) = false) :
    ∃ errs, login checkPw store data = LoginResult.validationErrors errs ∧
      "Invalid email format." ∈ errs ∧
      (login checkPw store data).status = 400 := by
  have hval : validate_user_payload data true =
      "Invalid email format." ::
        (if !optStrTruthy data.password then ["Password is required."]
         else if optStrTruthy data.password then
           match data.password with
           | some p =>
             if p.length < 8 then ["Password must be at least 8 characters."]
             else if p.length > 128 then ["Password is too long (max 128 characters)."]
             else []
           | Option.none => []
         else []) := by
    simp only [validate_user_payload, hbad, Bool.not_false, if_true, Bool.true_and,
      true_and, if_neg hne, List.singleton_append, List.cons_append, List.nil_append]
  have hlogin : login checkPw store data =
      LoginResult.validationErrors (validate_user_payload data true) := by
    simp only [login]
    split
    · rfl
    · next hcontra => rw [hval] at hcontra; simp at hcontra
  exact ⟨validate_user_payload data true, hlogin,
    by rw [hval]; exact List.mem_cons_self _ _,
    by rw [hlogin]; rfl⟩

/-- Witness for `login_rejects_invalid_email_format` at a concrete
malformed email. -/
theorem login_rejects_invalid_email_format_witness :
    ∃ errs, login (fun _ _ => true) emptyStore
        ⟨Py.str "nodomain", some "password123", Py.none, Py.none⟩ =
      LoginResult.validationErrors errs ∧
      "Invalid email format." ∈ errs ∧
      (login (fun _ _ => true) emptyStore
        ⟨Py.str "nodomain", some "password123", Py.none, Py.none⟩).status = 400 :=
  login_rejects_invalid_email_format (fun _ _ => true) emptyStore
    ⟨Py.str "nodomain", some "password123", Py.none, Py.none⟩
    (by decide) (by decide)

/-- Membership in the revocation set survives any later sequence of
logout calls: logout only ever adds tokens. -/
theorem run_logouts_contains (js : List (Option String)) (revoked : List String)
    (s : String) (h : revoked.contains s = true) :
    (run_logouts revoked js).contains s = true := by
  induction js generalizing revoked with
  | nil => exact h
  | cons j js ih =>
    refine ih _ ?_
    cases j with
    | none => exact h
    | some t =>
      simp only [logout]
      by_cases ht : (!t.toList.isEmpty) = true
      · rw [if_pos ht]
        simp at h ⊢
        exact Or.inr h
      · rw [if_neg ht]
        exact h

/-- C6.  Once logout adds a token's jti to the revocation set, every
subsequent guarded request presenting that jti is rejected as
unauthenticated, regardless of the further logout activity in the rest of
the process lifetime (no code removes entries from the set). -/
theorem revoked_jti_rejected_forever {α : Type} (revoked : List String) (jti : String)
    (later : List (Option String)) (handler : α) (hne : jti ≠ "") :
    is_token_revoked (run_logouts (logout revoked (some jti)).1 later) (some jti) = true ∧
    guarded_request (run_logouts (logout revoked (some jti)).1 later) (some jti) handler =
      TokenCheck.revoked_rejected := by
  have hdata : jti.data ≠ [] := by
    intro h0
    apply hne
    cases jti with
    | mk l =>
      have h1 : l = [] := h0
      subst h1
      decide
  have hadd : ((logout revoked (some jti)).1).contains jti = true := by
    simp [logout, hdata]
  have hmem := run_logouts_contains later _ jti hadd
  refine ⟨hmem, ?_⟩
  unfold guarded_request
  rw [if_pos ?_]
  show is_token_revoked _ _ = true
  exact hmem

/-- Witness for `revoked_jti_rejected_forever` on a concrete revocation
history. -/
theorem revoked_jti_rejected_forever_witness :
    is_token_revoked (run_logouts (logout [] (some "tok1")).1 [some "tok2", Option.none])
      (some "tok1") = true ∧
    guarded_request (run_logouts (logout [] (some "tok1")).1 [some "tok2", Option.none])
      (some "tok1") (0 : Nat) = TokenCheck.revoked_rejected :=
  revoked_jti_rejected_forever [] "tok1" [some "tok2", Option.none] 0 (by decide)

/-- C8.  A validated login with a known email but failing password check
and a validated login with an unknown email produce the same response:
401 with the one shared "Invalid credentials." body, so the two failure
causes are indistinguishable to the client. -/
theorem login_indistinguishable_failures (checkPw : String → String → Bool)
    (store : Store) (d1 d2 : UserPayload) (u : User)
    (h1 : validate_user_payload d1 true = [])
    (h2 : validate_user_payload d2 true = [])
    (hfind1 : store.users.find? (fun x => x.email == sanitize_email d1.email) = some u)
    (hpw : checkPw u.password_hash ((d1.password).getD "") = false)
    (hfind2 : store.users.find? (fun x => x.email == sanitize_email d2.email) = Option.none) :
    login checkPw store d1 = LoginResult.unauthorized "Invalid credentials." ∧
    login checkPw store d2 = LoginResult.unauthorized "Invalid credentials." ∧
    login checkPw store d1 = login checkPw store d2 ∧
    (login checkPw store d1).status = 401 := by
  have hl1 : login checkPw store d1 = LoginResult.unauthorized "Invalid credentials." := by
    simp only [login]
    split
    · next hc => rw [h1] at hc; simp at hc
    · rw [hfind1]
      simp [hpw]
  have hl2 : login checkPw store d2 = LoginResult.unauthorized "Invalid credentials." := by
    simp only [login]
    split
    · next hc => rw [h2] at hc; simp at hc
    · rw [hfind2]
  exact ⟨hl1, hl2, by rw [hl1, hl2], by rw [hl1]; rfl⟩

/-- A user row for the C8 witness store. -/
def userAdminAB : User :=
  { id := 1, email := "a@b.com", password_hash := "HASH",
    role := UserRole.admin, facility_id := Option.none }

/-- Witness for `login_indistinguishable_failures`: same store, one
wrong-password attempt against the existing a@b.com and one attempt with
the unknown c@d.com. -/
theorem login_indistinguishable_failures_witness :
    login (fun _ _ => false) ⟨[], [userAdminAB], [], 2, 1⟩
        ⟨Py.str "a@b.com", some "password11", Py.none, Py.none⟩ =
      LoginResult.unauthorized "Invalid credentials." ∧
    login (fun _ _ => false) ⟨[], [userAdminAB], [], 2, 1⟩
        ⟨Py.str "c@d.com", some "password11", Py.none, Py.none⟩ =
      LoginResult.unauthorized "Invalid credentials." ∧
    login (fun _ _ => false) ⟨[], [userAdminAB], [], 2, 1⟩
        ⟨Py.str "a@b.com", some "password11", Py.none, Py.none⟩ =
      login (fun _ _ => false) ⟨[], [userAdminAB], [], 2, 1⟩
        ⟨Py.str "c@d.com", some "password11", Py.none, Py.none⟩ ∧
    (login (fun _ _ => false) ⟨[], [userAdminAB], [], 2, 1⟩
        ⟨Py.str "a@b.com", some "password11", Py.none, Py.none⟩).status = 401 :=
  login_indistinguishable_failures (fun _ _ => false) ⟨[], [userAdminAB], [], 2, 1⟩
    ⟨Py.str "a@b.com", some "password11", Py.none, Py.none⟩
    ⟨Py.str "c@d.com", some "password11", Py.none, Py.none⟩
    userAdminAB (by decide) (by decide) (by decide) (by decide) (by decide)

/-- Counterexample to C1: a registration payload with role reporter and
no facility_id is not answered 400 — the user is created (201).  The
register route has no "facility_id required for reporter" check. -/
theorem register_reporter_no_facility_cex :
    regReporterNoFacility.role = Py.str "reporter" ∧
    regReporterNoFacility.facility_id = Py.none ∧
    (register hashId emptyStore regReporterNoFacility).1.status = 201 :=
  ⟨rfl, rfl, by decide⟩

/-- C1 (amended).  Of the claimed registration checks, two hold: a parsed
role other than reporter together with a present (valid) facility_id is
answered 400, and a reporter payload naming a nonexistent facility is
answered 404.  The third does not: role reporter with facility_id absent
passes every check and creates the user (201 when the email is new). -/
theorem register_facility_id_rules :
    (∀ (hash : String → String) (store : Store) (data : UserPayload) (f : Int) (r : UserRole),
      validate_user_payload data true = [] →
      sanitize_integer data.facility_id (some 1) Option.none = some f →
      UserRole.ofValue (strToLower (sanitize_string
        (if truthy data.role then data.role else Py.str "reporter") 50)) = some r →
      r ≠ UserRole.reporter →
      register hash store data =
        (RegisterResult.badRequest "facility_id allowed only for reporter role.", store)) ∧
    (∀ (hash : String → String) (store : Store) (data : UserPayload) (f : Int),
      validate_user_payload data true = [] →
      sanitize_integer data.facility_id (some 1) Option.none = some f →
      UserRole.ofValue (strToLower (sanitize_string
        (if truthy data.role then data.role else Py.str "reporter") 50)) =
        some UserRole.reporter →
      (store.facilities.find? (fun x => x.id == f)).isNone = true →
      register hash store data = (RegisterResult.notFound "Facility not found.", store)) ∧
    (∀ (hash : String → String) (store : Store) (data : UserPayload),
      validate_user_payload data true = [] →
      data.facility_id = Py.none →
      UserRole.ofValue (strToLower (sanitize_string
        (if truthy data.role then data.role else Py.str "reporter") 50)) =
        some UserRole.reporter →
      store.users.any (fun u => u.email == sanitize_email data.email) = false →
      ∃ u, (register hash store data).1 = RegisterResult.created u ∧
        (register hash store data).1.status = 201 ∧
        u.role = UserRole.reporter ∧ u.facility_id = Option.none) := by
  refine ⟨?_, ?_, ?_⟩
  · intro hash store data f r hval hfid hrole hner
    simp [register, hval, hfid, hrole, hner]
  · intro hash store data f hval hfid hrole hfind
    simp [register, hval, hfid, hrole, hfind]
  · intro hash store data hval hnone hrole hdup
    simp [register, hval, hnone, hrole, hdup, sanitize_integer, Py.isNone,
      RegisterResult.status]

/-- Witness for `register_facility_id_rules` at concrete payloads: admin
with facility 1 → 400; reporter naming missing facility 2 → 404;
reporter with no facility → 201 with a null-facility reporter row. -/
theorem register_facility_id_rules_witness :
    register hashId emptyStore regAdminWithFacility =
      (RegisterResult.badRequest "facility_id allowed only for reporter role.", emptyStore) ∧
    register hashId emptyStore regReporterFacilityTwo =
      (RegisterResult.notFound "Facility not found.", emptyStore) ∧
    ∃ u, (register hashId emptyStore regReporterNoFacility).1 = RegisterResult.created u ∧
      (register hashId emptyStore regReporterNoFacility).1.status = 201 ∧
      u.role = UserRole.reporter ∧ u.facility_id = Option.none :=
  ⟨register_facility_id_rules.1 hashId emptyStore regAdminWithFacility 1 UserRole.admin
      (by decide) (by decide) (by decide) (by decide),
   register_facility_id_rules.2.1 hashId emptyStore regReporterFacilityTwo 2
      (by decide) (by decide) (by decide) (by decide),
   register_facility_id_rules.2.2 hashId emptyStore regReporterNoFacility
      (by decide) rfl (by decide) (by decide)⟩

/-- Counterexample to C2: register produces a user row with role =
reporter and facility_id null, violating the claimed "non-null iff
reporter" invariant in the only-if-reporter direction. -/
theorem user_facility_iff_cex :
    (register hashId emptyStore regReporterNoFacility).2.users.any
      (fun u => decide (u.role = UserRole.reporter) && u.facility_id.isNone) = true := by
  decide

/-- C2 (amended).  Every user row inserted by register or by admin
create_user satisfies "facility_id non-null only if role = reporter";
for create_user rows the full iff holds (a reporter must name an existing
facility, everyone else gets facility_id forced to null).  Register rows
satisfy only the one direction: a reporter row may have a null
facility_id. -/
theorem new_user_facility_only_reporter :
    (∀ (hash : String → String) (store : Store) (data : UserPayload) (u : User),
      u ∈ (register hash store data).2.users → u ∉ store.users →
      u.facility_id.isSome = true → u.role = UserRole.reporter) ∧
    (∀ (hash : String → String) (store : Store) (data : AdminUserPayload) (u : User),
      u ∈ (create_user hash store data).2.users → u ∉ store.users →
      (u.facility_id.isSome = true ↔ u.role = UserRole.reporter)) := by
  constructor
  · intro hash store data u hmem hnot hsome
    simp only [register] at hmem
    split at hmem
    · exact absurd hmem hnot
    · split at hmem
      · exact absurd hmem hnot
      · split at hmem
        · exact absurd hmem hnot
        · next role hrole =>
          split at hmem
          · exact absurd hmem hnot
          · next h4 =>
            split at hmem
            · exact absurd hmem hnot
            · split at hmem
              · exact absurd hmem hnot
              · rcases List.mem_append.mp hmem with hin | hin
                · exact absurd hin hnot
                · have hu := List.mem_singleton.mp hin
                  subst hu
                  by_contra hne
                  exact h4 ⟨hne, hsome⟩
  · intro hash store data u hmem hnot
    simp only [create_user] at hmem
    split at hmem
    · exact absurd hmem hnot
    · split at hmem
      · exact absurd hmem hnot
      · split at hmem
        · exact absurd hmem hnot
        · next role hrole =>
          split at hmem
          · -- reporter branch
            next hrep =>
            split at hmem
            · exact absurd hmem hnot
            · next fid =>
              split at hmem
              · exact absurd hmem hnot
              · split at hmem
                · exact absurd hmem hnot
                · rcases List.mem_append.mp hmem with hin | hin
                  · exact absurd hin hnot
                  · have hu := List.mem_singleton.mp hin
                    subst hu
                    simp [hrep]
          · -- non-reporter branch
            next hrep =>
            split at hmem
            · exact absurd hmem hnot
            · rcases List.mem_append.mp hmem with hin | hin
              · exact absurd hin hnot
              · have hu := List.mem_singleton.mp hin
                subst hu
                simp [hrep]

/-- Admin create-user payload naming facility 1 with role reporter, for
the C2 witness. -/
def adminCreatesReporter : AdminUserPayload :=
  ⟨Py.str "r@x.com", some "password1", Option.none, Py.str "reporter", Py.int 1⟩

/-- A facility row with id 1 for witnesses. -/
def facilityOne : Facility := ⟨1, "General Hospital", Option.none, Option.none⟩

/-- Witness for `new_user_facility_only_reporter`: the iff instantiated
at the row a concrete create_user call inserts. -/
theorem new_user_facility_only_reporter_witness :
    (⟨1, "r@x.com", "password1", UserRole.reporter, some 1⟩ : User).facility_id.isSome = true ↔
    (⟨1, "r@x.com", "password1", UserRole.reporter, some 1⟩ : User).role = UserRole.reporter :=
  new_user_facility_only_reporter.2 hashId ⟨[facilityOne], [], [], 1, 1⟩ adminCreatesReporter
    ⟨1, "r@x.com", "password1", UserRole.reporter, some 1⟩ (by decide) (by decide)

/-- Effect of the in-place overwrite on a report list holding at most one
row for the facility: afterwards exactly one row for it remains, the list
length is unchanged, and that row carries the written fields. -/
theorem updateFirstReport_spec (fid : Int) (icu vent staff : Option Int) (now : Nat)
    (l : List Report) :
    l.countP (fun r => r.facility_id == fid) ≤ 1 →
    (l.find? (fun r => r.facility_id == fid)).isSome = true →
    (updateFirstReport l fid (setReportFields icu vent staff now)).countP
        (fun r => r.facility_id == fid) = 1 ∧
    (updateFirstReport l fid (setReportFields icu vent staff now)).length = l.length ∧
    (∀ r ∈ updateFirstReport l fid (setReportFields icu vent staff now), r.facility_id = fid →
      r.icu_beds_available = icu ∧ r.ventilators_available = vent ∧
        r.staff_on_duty = staff) := by
  induction l with
  | nil => intro _ hfound; simp [List.find?] at hfound
  | cons r rs ih =>
    intro hone hfound
    by_cases hr : (r.facility_id == fid) = true
    · have hcount0 : rs.countP (fun x => x.facility_id == fid) = 0 := by
        rw [List.countP_cons] at hone
        simp only [hr, if_true] at hone
        omega
      unfold updateFirstReport
      rw [if_pos hr]
      have hupd : ((setReportFields icu vent staff now r).facility_id == fid) = true := hr
      refine ⟨?_, by simp, ?_⟩
      · rw [List.countP_cons]
        simp [hupd, hcount0]
      · intro x hx hfx
        rcases List.mem_cons.mp hx with hx | hx
        · subst hx; exact ⟨rfl, rfl, rfl⟩
        · have hnf := List.countP_eq_zero.mp hcount0 x hx
          exact absurd (beq_iff_eq.mpr hfx) (by simpa using hnf)
    · have hrf : (r.facility_id == fid) = false := by simpa using hr
      have hfound2 : (rs.find? (fun x => x.facility_id == fid)).isSome = true := by
        rw [List.find?_cons, hrf] at hfound
        exact hfound
      have hone2 : rs.countP (fun x => x.facility_id == fid) ≤ 1 := by
        rw [List.countP_cons] at hone
        omega
      obtain ⟨ihc, ihl, ihf⟩ := ih hone2 hfound2
      unfold updateFirstReport
      rw [if_neg hr]
      refine ⟨?_, ?_, ?_⟩
      · rw [List.countP_cons]
        simp [hrf, ihc]
      · simp [ihl]
      · intro x hx hfx
        rcases List.mem_cons.mp hx with hx | hx
        · subst hx; exact absurd (beq_iff_eq.mpr hfx) hr
        · exact ihf x hx hfx

/-- Effect of the whole upsert on a store holding at most one row for the
facility: exactly one row for it remains and carries the written fields;
the facilities table is untouched; and when a row already existed the
write happens in place, adding no row. -/
theorem upsertReport_spec (f : Int) (icu vent staff : Option Int) (now : Nat) (store : Store)
    (hone : store.reports.countP (fun r => r.facility_id == f) ≤ 1) :
    (upsertReport f icu vent staff now store).2.reports.countP
        (fun r => r.facility_id == f) = 1 ∧
    (∀ r ∈ (upsertReport f icu vent staff now store).2.reports, r.facility_id = f →
      r.icu_beds_available = icu ∧ r.ventilators_available = vent ∧
        r.staff_on_duty = staff) ∧
    (upsertReport f icu vent staff now store).2.facilities = store.facilities ∧
    (store.reports.countP (fun r => r.facility_id == f) = 1 →
      (upsertReport f icu vent staff now store).2.reports.length =
        store.reports.length) := by
  cases hfind : store.reports.find? (fun r => r.facility_id == f) with
  | some r0 =>
    have hres : (upsertReport f icu vent staff now store).2.reports =
        updateFirstReport store.reports f (setReportFields icu vent staff now) := by
      unfold upsertReport
      rw [hfind]
    have hfacs : (upsertReport f icu vent staff now store).2.facilities = store.facilities := by
      unfold upsertReport
      rw [hfind]
    obtain ⟨hc, hl, hf⟩ := updateFirstReport_spec f icu vent staff now store.reports hone
      (by rw [hfind]; rfl)
    rw [hres]
    exact ⟨hc, hf, hfacs, fun _ => hl⟩
  | none =>
    have hres : (upsertReport f icu vent staff now store).2.reports =
        store.reports ++ [⟨store.nextReportId, f, icu, vent, staff, now⟩] := by
      unfold upsertReport
      rw [hfind]
    have hfacs : (upsertReport f icu vent staff now store).2.facilities = store.facilities := by
      unfold upsertReport
      rw [hfind]
    have hall := List.find?_eq_none.mp hfind
    have hcount0 : store.reports.countP (fun r => r.facility_id == f) = 0 :=
      List.countP_eq_zero.mpr (fun a ha => by simpa using hall a ha)
    rw [hres]
    refine ⟨?_, ?_, hfacs, ?_⟩
    · rw [List.countP_append, hcount0, List.countP_cons]
      simp
    · intro r hr hrf
      rcases List.mem_append.mp hr with hr | hr
      · exact absurd (beq_iff_eq.mpr hrf) (by simpa using hall r hr)
      · have h9 := List.mem_singleton.mp hr
        subst h9
        exact ⟨rfl, rfl, rfl⟩
    · intro hcontra
      rw [hcount0] at hcontra
      exact absurd hcontra (by decide)

/-- On the success path (valid payload, authorized caller, existing
facility) create_report is exactly the upsert of the three sanitized
counts. -/
theorem create_report_success (role repFac : Py) (now : Nat) (store : Store)
    (data : ReportPayload) (f : Int)
    (hval : validate_report_payload data = [])
    (hfid : sanitize_integer data.facility_id (some 1) Option.none = some f)
    (hauth1 : (pyEqStr role "reporter" && !truthy repFac) = false)
    (hauth2 : (pyEqStr role "reporter" && !pyEqInt repFac f) = false)
    (hfac : (store.facilities.find? (fun x => x.id == f)).isNone = false) :
    create_report role repFac now store data =
      (ReportResult.created
        (upsertReport f (sanitize_integer data.icu_beds_available (some 0) (some 10000))
          (sanitize_integer data.ventilators_available (some 0) (some 10000))
          (sanitize_integer data.staff_on_duty (some 0) (some 10000)) now store).1,
       (upsertReport f (sanitize_integer data.icu_beds_available (some 0) (some 10000))
          (sanitize_integer data.ventilators_available (some 0) (some 10000))
          (sanitize_integer data.staff_on_duty (some 0) (some 10000)) now store).2) := by
  simp [create_report, hval, hfid, hauth1, hauth2, hfac]

/-- C4 (amended).  Starting from any store holding at most one report row
for the facility — the invariant every sequentially reached store
satisfies — submitting the same valid report payload twice in sequence
returns 201 both times and leaves exactly one report row for that
facility, carrying the submitted (sanitized) values; the second
submission overwrites in place and inserts no row. -/
theorem create_report_sequential_idempotent (role repFac : Py) (now1 now2 : Nat)
    (store : Store) (data : ReportPayload) (f : Int)
    (hval : validate_report_payload data = [])
    (hfid : sanitize_integer data.facility_id (some 1) Option.none = some f)
    (hauth1 : (pyEqStr role "reporter" && !truthy repFac) = false)
    (hauth2 : (pyEqStr role "reporter" && !pyEqInt repFac f) = false)
    (hfac : (store.facilities.find? (fun x => x.id == f)).isNone = false)
    (hone : store.reports.countP (fun r => r.facility_id == f) ≤ 1) :
    (create_report role repFac now1 store data).1.status = 201 ∧
    (create_report role repFac now2
        (create_report role repFac now1 store data).2 data).1.status = 201 ∧
    (create_report role repFac now2
        (create_report role repFac now1 store data).2 data).2.reports.countP
      (fun r => r.facility_id == f) = 1 ∧
    (∀ r ∈ (create_report role repFac now2
        (create_report role repFac now1 store data).2 data).2.reports,
      r.facility_id = f →
      r.icu_beds_available = sanitize_integer data.icu_beds_available (some 0) (some 10000) ∧
      r.ventilators_available =
        sanitize_integer data.ventilators_available (some 0) (some 10000) ∧
      r.staff_on_duty = sanitize_integer data.staff_on_duty (some 0) (some 10000)) ∧
    (create_report role repFac now2
        (create_report role repFac now1 store data).2 data).2.reports.length =
      (create_report role repFac now1 store data).2.reports.length := by
  have hcr1 := create_report_success role repFac now1 store data f
    hval hfid hauth1 hauth2 hfac
  obtain ⟨hc1, hf1, hfacs1, hlen1⟩ := upsertReport_spec f
    (sanitize_integer data.icu_beds_available (some 0) (some 10000))
    (sanitize_integer data.ventilators_available (some 0) (some 10000))
    (sanitize_integer data.staff_on_duty (some 0) (some 10000)) now1 store hone
  have hfac2 : (((create_report role repFac now1 store data).2).facilities.find?
      (fun x => x.id == f)).isNone = false := by
    rw [hcr1]
    rw [hfacs1]
    exact hfac
  have hone2 : ((create_report role repFac now1 store data).2).reports.countP
      (fun r => r.facility_id == f) ≤ 1 := by
    rw [hcr1]
    rw [hc1]
  have hcr2 := create_report_success role repFac now2
    ((create_report role repFac now1 store data).2) data f
    hval hfid hauth1 hauth2 hfac2
  obtain ⟨hc2, hf2, hfacs2, hlen2⟩ := upsertReport_spec f
    (sanitize_integer data.icu_beds_available (some 0) (some 10000))
    (sanitize_integer data.ventilators_available (some 0) (some 10000))
    (sanitize_integer data.staff_on_duty (some 0) (some 10000)) now2
    ((create_report role repFac now1 store data).2)
    hone2
  refine ⟨?_, ?_, ?_, ?_, ?_⟩
  · rw [hcr1]; rfl
  · rw [hcr2]; rfl
  · rw [hcr2]; exact hc2
  · rw [hcr2]; exact hf2
  · rw [hcr2]
    refine hlen2 ?_
    rw [hcr1]
    exact hc1

/-- Valid report payload used in the C4 witness and counterexample. -/
def reportPayloadOne : ReportPayload := ⟨Py.int 1, Py.int 0, Py.int 2, Py.int 10⟩

/-- Witness for `create_report_sequential_idempotent`: an admin submits
the same payload twice into a store with facility 1 and no reports. -/
theorem create_report_sequential_idempotent_witness :
    (create_report (Py.str "admin") Py.none 1 ⟨[facilityOne], [], [], 1, 1⟩
      reportPayloadOne).1.status = 201 ∧
    (create_report (Py.str "admin") Py.none 2
        (create_report (Py.str "admin") Py.none 1 ⟨[facilityOne], [], [], 1, 1⟩
          reportPayloadOne).2 reportPayloadOne).1.status = 201 ∧
    (create_report (Py.str "admin") Py.none 2
        (create_report (Py.str "admin") Py.none 1 ⟨[facilityOne], [], [], 1, 1⟩
          reportPayloadOne).2 reportPayloadOne).2.reports.countP
      (fun r => r.facility_id == 1) = 1 ∧
    (∀ r ∈ (create_report (Py.str "admin") Py.none 2
        (create_report (Py.str "admin") Py.none 1 ⟨[facilityOne], [], [], 1, 1⟩
          reportPayloadOne).2 reportPayloadOne).2.reports,
      r.facility_id = 1 →
      r.icu_beds_available =
        sanitize_integer reportPayloadOne.icu_beds_available (some 0) (some 10000) ∧
      r.ventilators_available =
        sanitize_integer reportPayloadOne.ventilators_available (some 0) (some 10000) ∧
      r.staff_on_duty =
        sanitize_integer reportPayloadOne.staff_on_duty (some 0) (some 10000)) ∧
    (create_report (Py.str "admin") Py.none 2
        (create_report (Py.str "admin") Py.none 1 ⟨[facilityOne], [], [], 1, 1⟩
          reportPayloadOne).2 reportPayloadOne).2.reports.length =
      (create_report (Py.str "admin") Py.none 1 ⟨[facilityOne], [], [], 1, 1⟩
        reportPayloadOne).2.reports.length :=
  create_report_sequential_idempotent (Py.str "admin") Py.none 1 2
    ⟨[facilityOne], [], [], 1, 1⟩ reportPayloadOne 1
    (by decide) (by decide) (by decide) (by decide) (by decide) (by decide)

/-- A store already holding two report rows for facility 1, as the
schema permits (no uniqueness constraint on facility_id). -/
def dupReportStore : Store :=
  ⟨[facilityOne], [], [⟨1, 1, some 5, some 5, some 5, 0⟩, ⟨2, 1, some 7, some 7, some 7, 0⟩], 1, 3⟩

/-- Counterexample to C4 as stated over any store: starting from a store
with two rows for facility 1, two identical valid submissions both
return 201 yet two rows for the facility remain — the upsert only
overwrites the first matching row and never deduplicates. -/
theorem create_report_duplicate_rows_cex :
    (create_report (Py.str "admin") Py.none 1 dupReportStore reportPayloadOne).1.status = 201 ∧
    (create_report (Py.str "admin") Py.none 2
        (create_report (Py.str "admin") Py.none 1 dupReportStore reportPayloadOne).2
        reportPayloadOne).1.status = 201 ∧
    (create_report (Py.str "admin") Py.none 2
        (create_report (Py.str "admin") Py.none 1 dupReportStore reportPayloadOne).2
        reportPayloadOne).2.reports.countP (fun r => r.facility_id == 1) = 2 :=
  ⟨by decide, by decide, by decide⟩

/-- The grouped maximum is attained by some element of the list. -/
theorem natListMax?_mem (l : List Nat) (m : Nat) (h : natListMax? l = some m) : m ∈ l := by
  induction l generalizing m with
  | nil => simp [natListMax?] at h
  | cons x xs ih =>
    unfold natListMax? at h
    cases hrec : natListMax? xs with
    | none =>
      simp only [hrec] at h
      have hm := Option.some.inj h
      subst hm
      exact List.mem_cons_self x xs
    | some m0 =>
      simp only [hrec] at h
      have hm := Option.some.inj h
      subst hm
      rcases max_choice x m0 with he | he
      · rw [he]; exact List.mem_cons_self x xs
      · rw [he]; exact List.mem_cons_of_mem x (ih m0 hrec)

/-- The latest-report lookup of the dashboard finds a row exactly when
the facility has any report at all: the per-facility maximum of
updated_at is attained, and the attaining row survives the join back. -/
theorem latest_by_facility_isSome_iff (reports : List Report) (fid : Int) :
    (latest_by_facility reports fid).isSome = true ↔
      ∃ r ∈ reports, r.facility_id = fid := by
  constructor
  · intro h
    unfold latest_by_facility at h
    rw [List.find?_isSome] at h
    obtain ⟨r, hmem, hpred⟩ := h
    exact ⟨r, (List.mem_filter.mp (List.mem_reverse.mp hmem)).1, beq_iff_eq.mp hpred⟩
  · rintro ⟨r, hmem, hfid⟩
    have hrf : r ∈ reports.filter (fun x => x.facility_id == fid) :=
      List.mem_filter.mpr ⟨hmem, beq_iff_eq.mpr hfid⟩
    have hne : (reports.filter (fun x => x.facility_id == fid)).map
        (fun x => x.updated_at) ≠ [] := by
      intro h0
      rw [List.map_eq_nil_iff] at h0
      rw [h0] at hrf
      exact absurd hrf (List.not_mem_nil r)
    have hsome : ∃ m, natListMax? ((reports.filter (fun x => x.facility_id == fid)).map
        (fun x => x.updated_at)) = some m := by
      cases hc : (reports.filter (fun x => x.facility_id == fid)).map
          (fun x => x.updated_at) with
      | nil => exact absurd hc hne
      | cons y ys => exact ⟨_, rfl⟩
    obtain ⟨m, hm⟩ := hsome
    have hmmem := natListMax?_mem _ m hm
    obtain ⟨r1, hr1mem, hr1eq⟩ := List.mem_map.mp hmmem
    have hr1fid : r1.facility_id = fid := beq_iff_eq.mp (List.mem_filter.mp hr1mem).2
    have hr1rep : r1 ∈ reports := (List.mem_filter.mp hr1mem).1
    have hlat : r1 ∈ latest_reports reports := by
      refine List.mem_filter.mpr ⟨hr1rep, ?_⟩
      show (latestTs reports r1.facility_id == some r1.updated_at) = true
      rw [hr1fid]
      unfold latestTs
      rw [hm, hr1eq]
      exact beq_self_eq_true _
    unfold latest_by_facility
    rw [List.find?_isSome]
    exact ⟨r1, List.mem_reverse.mpr hlat, beq_iff_eq.mpr hr1fid⟩

/-- C7.  In the dashboard summary, every facility's entry has its
critical flag true exactly when the facility has a report and the latest
selected report has icu_beds_available equal to 0; a facility with no
report gets null resource fields, null last_update, and a false critical
flag. -/
theorem dashboard_critical_flag (store : Store) (fac : Facility)
    (hmem : fac ∈ store.facilities) :
    dashboard_entry store.reports fac ∈ dashboard_summary store ∧
    ((dashboard_entry store.reports fac).critical = true ↔
      ∃ r, latest_by_facility store.reports fac.id = some r ∧
        r.icu_beds_available = some 0) ∧
    ((latest_by_facility store.reports fac.id).isSome = true ↔
      ∃ r ∈ store.reports, r.facility_id = fac.id) ∧
    ((¬ ∃ r ∈ store.reports, r.facility_id = fac.id) →
      (dashboard_entry store.reports fac).icu_beds_available = Option.none ∧
      (dashboard_entry store.reports fac).ventilators_available = Option.none ∧
      (dashboard_entry store.reports fac).staff_on_duty = Option.none ∧
      (dashboard_entry store.reports fac).last_update = Option.none ∧
      (dashboard_entry store.reports fac).critical = false) := by
  refine ⟨?_, ?_, latest_by_facility_isSome_iff _ _, ?_⟩
  · unfold dashboard_summary
    exact List.mem_map_of_mem _
      ((List.perm_insertionSort _ store.facilities).mem_iff.mpr hmem)
  · simp only [dashboard_entry]
    cases hl : latest_by_facility store.reports fac.id with
    | none => simp [hl]
    | some r => simp [hl]
  · intro hno
    have hnone : latest_by_facility store.reports fac.id = Option.none := by
      cases hl : latest_by_facility store.reports fac.id with
      | none => rfl
      | some r =>
        exact absurd ((latest_by_facility_isSome_iff _ _).mp (by rw [hl]; rfl)) hno
    simp only [dashboard_entry]
    simp [hnone]

/-- Witness for `dashboard_critical_flag`: a facility whose only report
has zero ICU beds is flagged critical. -/
theorem dashboard_critical_flag_witness :
    (dashboard_entry [⟨1, 5, some 0, some 2, some 10, 3⟩]
      ⟨5, "Facility Five", Option.none, Option.none⟩).critical = true := by
  have h := dashboard_critical_flag
    ⟨[⟨5, "Facility Five", Option.none, Option.none⟩], [],
     [⟨1, 5, some 0, some 2, some 10, 3⟩], 1, 2⟩
    ⟨5, "Facility Five", Option.none, Option.none⟩ (by decide)
  exact h.2.1.mpr ⟨⟨1, 5, some 0, some 2, some 10, 3⟩, by decide, rfl⟩
